import Mathlib

/-!
Verification of the news-collection core of the paint-news-app repository
(scripts/collect_news.py) against its natural-language specification.

The Python source is shallowly embedded below: pure functions become Lean
functions, the stateful deduplication loop becomes explicit state passing,
fallible steps return Except.  Machine-level details that matter are kept:
difflib.SequenceMatcher is embedded with its exact dynamic program,
extension loops and autojunk rule; the float comparison ratio >= 0.75 is
rendered as the exact rational comparison 8*M >= 3*(len a + len b), which
agrees with the IEEE-754 double comparison for all relevant sizes because
0.75 is exactly representable and 2*M/L is computed with one correctly
rounded division.
-/

namespace PaintNews

/- ──────────────────────────────────────────────
   Python string primitives used by the source
   ────────────────────────────────────────────── -/

/-- The ASCII whitespace characters stripped by Python str.strip().
(Non-ASCII Unicode whitespace is outside the model scope; the records come
from a JSON HTTP API.) -/
def isPyWhitespace (c : Char) : Bool :=
  c == ' ' || c == '\t' || c == '\n' || c == '\r' || c == '\x0b' || c == '\x0c'

/-- Python str.strip(): remove leading and trailing whitespace. -/
def pyStrip (s : String) : String :=
  String.mk (((s.toList.dropWhile isPyWhitespace).reverse.dropWhile isPyWhitespace).reverse)

/-- Python str.lower() restricted to ASCII (the only case the titles and
URLs in the claims exercise); maps A-Z to a-z and leaves the rest alone. -/
def pyLower (s : String) : String :=
  String.mk (s.toList.map Char.toLower)

/-- Python "x or default" for an optional string: the default is used when
the value is absent (None) or empty (falsy). -/
def pyOrStr (x : Option String) (dflt : String) : String :=
  match x with
  | none => dflt
  | some s => if s = "" then dflt else s

/-- Python s.rstrip(sep for the single character slash): drop every
trailing slash. -/
def rstripSlashes (s : String) : String :=
  String.mk ((s.toList.reverse.dropWhile (fun c => c == '/')).reverse)

/-- URL normalization used by the deduplicator:
article.url.rstrip(slash).lower()  (collect_news.py line 93). -/
def normalizeUrl (u : String) : String :=
  pyLower (rstripSlashes u)

/- ──────────────────────────────────────────────
   difflib.SequenceMatcher (CPython), junk=None
   ────────────────────────────────────────────── -/

/-- Ascending list of the positions of character c in b
(the entry b2j[c] built by SequenceMatcher.__chain_b). -/
def bIndices (b : List Char) (c : Char) : List Nat :=
  (List.range b.length).filter (fun j => b.getD j ' ' == c)

/-- The autojunk rule of SequenceMatcher.__chain_b: when len(b) >= 200,
characters occurring more than len(b)/100 + 1 times are popular and their
index lists are removed from b2j.  (Popular characters are NOT in bjunk,
so the extension loops below still match across them.) -/
def isPopularChar (b : List Char) (c : Char) : Bool :=
  decide (200 ≤ b.length) && decide (b.length / 100 + 1 < b.count c)

/-- b2j lookup: positions of c in b, empty for autojunk-popular c. -/
def b2j (b : List Char) (c : Char) : List Nat :=
  if isPopularChar b c then [] else bIndices b c

/-- Lookup in the j2len dictionary (an association list; missing key
defaults to 0, like dict.get(j-1, 0)). -/
def dictGet (d : List (Nat × Nat)) (k : Nat) : Nat :=
  match d.find? (fun p => p.1 == k) with
  | some p => p.2
  | none => 0

/-- One iteration of the inner j-loop of find_longest_match: update the
new row of j2len and the running best block (besti, bestj, bestsize).
k > bestsize is the strict comparison of the source, so the earliest
(i, j) achieving each size is kept. -/
def innerStep (j2len : List (Nat × Nat)) (i : Nat)
    (st : List (Nat × Nat) × (Nat × Nat × Nat)) (j : Nat) :
    List (Nat × Nat) × (Nat × Nat × Nat) :=
  let k := (if j = 0 then 0 else dictGet j2len (j - 1)) + 1
  let row := (j, k) :: st.1
  let best := st.2
  if best.2.2 < k then (row, (i + 1 - k, j + 1 - k, k)) else (row, best)

/-- One iteration of the outer i-loop of find_longest_match.  The source
iterates j over b2j[a[i]] with "continue if j < blo, break if j >= bhi";
as the position list is ascending this equals filtering to [blo, bhi). -/
def outerStep (a b : List Char) (blo bhi : Nat)
    (st : List (Nat × Nat) × (Nat × Nat × Nat)) (i : Nat) :
    List (Nat × Nat) × (Nat × Nat × Nat) :=
  let js := (b2j b (a.getD i ' ')).filter (fun j => decide (blo ≤ j) && decide (j < bhi))
  js.foldl (innerStep st.1 i) ([], st.2)

/-- The left extension while-loop of find_longest_match.  With junk=None
the set bjunk is empty, so the non-junk condition reduces to character
equality and the junk-extension loops of the source never fire. -/
def extendLeft (a b : List Char) (alo blo : Nat) :
    Nat → Nat → Nat → Nat × Nat × Nat
  | besti + 1, bestj + 1, k =>
    if decide (alo ≤ besti) && decide (blo ≤ bestj)
        && (a.getD besti ' ' == b.getD bestj ' ') then
      extendLeft a b alo blo besti bestj (k + 1)
    else (besti + 1, bestj + 1, k)
  | besti, bestj, k => (besti, bestj, k)

/-- The right extension while-loop of find_longest_match (fuel-based; the
loop runs at most ahi iterations, so fuel = ahi is always sufficient). -/
def extendRight (a b : List Char) (ahi bhi besti bestj : Nat) :
    Nat → Nat → Nat
  | 0, k => k
  | fuel + 1, k =>
    if decide (besti + k < ahi) && decide (bestj + k < bhi)
        && (a.getD (besti + k) ' ' == b.getD (bestj + k) ' ') then
      extendRight a b ahi bhi besti bestj fuel (k + 1)
    else k

/-- SequenceMatcher.find_longest_match on the ranges a[alo:ahi], b[blo:bhi]:
the j2len dynamic program followed by the extension loops. -/
def findLongestMatch (a b : List Char) (alo ahi blo bhi : Nat) : Nat × Nat × Nat :=
  let init : List (Nat × Nat) × (Nat × Nat × Nat) := ([], (alo, blo, 0))
  let res := (List.range' alo (ahi - alo)).foldl (outerStep a b blo bhi) init
  let best := res.2
  let ext := extendLeft a b alo blo best.1 best.2.1 best.2.2
  (ext.1, ext.2.1, extendRight a b ahi bhi ext.1 ext.2.1 ahi ext.2.2)

/-- Total size of all matching blocks (SequenceMatcher.get_matching_blocks
summed; the final sort and merge of adjacent blocks preserve the sum, so
only the sum is computed).  The recursion of the source strictly shrinks
(ahi - alo) + (bhi - blo), hence fuel = len a + len b + 1 at the top call
is always sufficient. -/
def blocksSum (a b : List Char) : Nat → Nat → Nat → Nat → Nat → Nat
  | 0, _, _, _, _ => 0
  | fuel + 1, alo, ahi, blo, bhi =>
    let m := findLongestMatch a b alo ahi blo bhi
    let i := m.1
    let j := m.2.1
    let k := m.2.2
    if k = 0 then 0
    else
      k + (if decide (alo < i) && decide (blo < j) then blocksSum a b fuel alo i blo j else 0)
        + (if decide (i + k < ahi) && decide (j + k < bhi) then blocksSum a b fuel (i + k) ahi (j + k) bhi else 0)

/-- Sum of matching-block sizes between two character lists. -/
def matchesTotal (a b : List Char) : Nat :=
  blocksSum a b (a.length + b.length + 1) 0 a.length 0 b.length

/-- _is_similar_title (collect_news.py lines 81-83):
SequenceMatcher(None, a.lower(), b.lower()).ratio() >= 0.75.
ratio() is 2*M/(la+lb) (and 1.0 when both strings are empty); the float
comparison with the exactly representable 0.75 equals the rational
comparison 8*M >= 3*(la+lb). -/
def _is_similar_title (titleA titleB : String) : Bool :=
  let a := (pyLower titleA).toList
  let b := (pyLower titleB).toList
  let len := a.length + b.length
  if len = 0 then true
  else decide (3 * len ≤ 8 * matchesTotal a b)

/-- The similarity score strictly exceeds 0.75 (the reading "exceeds the
threshold" of the invariant claims): 2*M/(la+lb) > 3/4, and 1.0 > 0.75
when both strings are empty. -/
def similarityExceeds (titleA titleB : String) : Bool :=
  let a := (pyLower titleA).toList
  let b := (pyLower titleB).toList
  let len := a.length + b.length
  if len = 0 then true
  else decide (3 * len < 8 * matchesTotal a b)

/- ──────────────────────────────────────────────
   Data model (collect_news.py lines 37-75)
   ────────────────────────────────────────────── -/

/-- The Article data class.  published_at is Option String because the
provider value raw.get("publishedAt", "") can be the JSON null (Python
None); none models None.  The translation fields title_ja, summary_ja and
category are initialized to the empty string by __init__ and never read by
the core. -/
structure Article where
  title : String
  description : String
  url : String
  source : String
  published_at : Option String
  image_url : Option String
  title_ja : String := ""
  summary_ja : String := ""
  category : String := ""
deriving Repr, DecidableEq

/-- A raw provider item (one element of the JSON articles list), holding
exactly the fields the source reads.  For title, description, url,
sourceName and urlToImage, none models both an absent key and a JSON null
(dict.get returns None in both cases).  publishedAt is read with
raw.get("publishedAt", ""), which distinguishes an absent key (the default
"") from a null value (None), hence the two option layers: none = key
absent, some none = null, some (some s) = the string s. -/
structure RawArticle where
  title : Option String
  description : Option String
  url : Option String
  sourceName : Option String
  publishedAt : Option (Option String)
  urlToImage : Option String
deriving Repr, DecidableEq

/- ──────────────────────────────────────────────
   Quality filter (collect_news.py lines 120-136)
   ────────────────────────────────────────────── -/

/-- _is_valid_article: reject when title or url is empty after stripping,
or when the stripped lowercased title or description equals the
"[Removed]" sentinel.  The Python expression (raw.get(k) or "") maps both
a missing key and a falsy value (None or "") to "". -/
def _is_valid_article (raw : RawArticle) : Bool :=
  let title := pyOrStr raw.title ""
  let description := pyOrStr raw.description ""
  let url := pyOrStr raw.url ""
  if pyStrip title = "" || pyStrip url = "" then false
  else if pyLower (pyStrip title) = "[removed]" then false
  else if pyLower (pyStrip description) = "[removed]" then false
  else true

/-- Construction of an Article from a raw item that passed the filter
(collect_news.py lines 190-199).  The source indexes raw["title"] and
raw["url"] directly; under the filter guard both keys are present and
non-None, so pyOrStr with default "" is the same string. -/
def articleFromRaw (raw : RawArticle) : Article :=
  { title := pyStrip (pyOrStr raw.title "")
    description := pyStrip (pyOrStr raw.description "")
    url := pyStrip (pyOrStr raw.url "")
    source := pyStrip (pyOrStr raw.sourceName "Unknown")
    published_at :=
      match raw.publishedAt with
      | none => some ""
      | some v => v
    image_url := raw.urlToImage }

/-- The construction loop over the raw item list: skip items rejected by
the quality filter, construct an Article for the rest. -/
def buildArticles : List RawArticle → List Article
  | [] => []
  | raw :: rest =>
    if _is_valid_article raw then articleFromRaw raw :: buildArticles rest
    else buildArticles rest

/- ──────────────────────────────────────────────
   Deduplication (collect_news.py lines 86-114)
   ────────────────────────────────────────────── -/

/-- Normalized URL of an article. -/
def nUrl (a : Article) : String := normalizeUrl a.url

/-- The loop body state of _deduplicate_articles: the seen_urls set
(modelled as a list with membership) and the unique_articles output. -/
def dedupSt (st : List String × List Article) : List Article → List String × List Article
  | [] => st
  | a :: rest =>
    if st.1.contains (nUrl a) then dedupSt st rest
    else if st.2.any (fun e => _is_similar_title a.title e.title) then dedupSt st rest
    else dedupSt (nUrl a :: st.1, st.2 ++ [a]) rest

/-- _deduplicate_articles: run the loop from the empty state and return
unique_articles. -/
def _deduplicate_articles (articles : List Article) : List Article :=
  (dedupSt ([], []) articles).2

/-- The conflict relation of the specification: same normalized URL, or
title similarity at or above the threshold in the order the code compares
(the candidate title first, the retained title second). -/
def conflicts (a e : Article) : Bool :=
  (nUrl a == nUrl e) || _is_similar_title a.title e.title

/- ──────────────────────────────────────────────
   Python datetime model (for _parse_date and the sort)
   ────────────────────────────────────────────── -/

/-- A Python datetime as the pipeline uses it: a wall-clock instant in
seconds from 0001-01-01T00:00:00 (offset-adjusted when aware) plus the
awareness flag.  CPython compares two aware or two naive datetimes by this
instant and raises TypeError when the awareness differs. -/
structure PyDatetime where
  aware : Bool
  instantSec : Int
deriving Repr, DecidableEq

/-- datetime.min.replace(tzinfo=timezone.utc): year 1, Jan 1, midnight,
UTC — instant 0, aware. -/
def pyDatetimeMin : PyDatetime := { aware := true, instantSec := 0 }

/-- Proleptic Gregorian leap-year rule (datetime module). -/
def isLeapYear (y : Nat) : Bool :=
  (y % 4 == 0 && y % 100 != 0) || y % 400 == 0

/-- Days in a month (0 for an invalid month number). -/
def daysInMonth (y m : Nat) : Nat :=
  match m with
  | 1 => 31 | 2 => if isLeapYear y then 29 else 28 | 3 => 31
  | 4 => 30 | 5 => 31 | 6 => 30 | 7 => 31 | 8 => 31
  | 9 => 30 | 10 => 31 | 11 => 30 | 12 => 31
  | _ => 0

/-- Days from 0001-01-01 to the start of year y. -/
def daysBeforeYear (y : Nat) : Nat :=
  365 * (y - 1) + (y - 1) / 4 - (y - 1) / 100 + (y - 1) / 400

/-- Days from the start of year y to the start of month m. -/
def daysBeforeMonth (y m : Nat) : Nat :=
  ((List.range (m - 1)).map (fun i => daysInMonth y (i + 1))).sum

/-- Two decimal digits to a number. -/
def twoDigits (c1 c2 : Char) : Option Nat :=
  if c1.isDigit && c2.isDigit then
    some ((c1.toNat - 48) * 10 + (c2.toNat - 48))
  else none

/-- Assemble and range-check a datetime from parsed components
(offsetMin = none for a naive result). -/
def mkPyDatetime (y mo d h mi s : Nat) (offsetMin : Option Int) : Option PyDatetime :=
  if 1 ≤ y && 1 ≤ mo && mo ≤ 12 && 1 ≤ d && d ≤ daysInMonth y mo
      && h ≤ 23 && mi ≤ 59 && s ≤ 59 then
    let days := daysBeforeYear y + daysBeforeMonth y mo + (d - 1)
    let wall : Int := ((days * 24 + h) * 60 + mi) * 60 + s
    match offsetMin with
    | none => some { aware := false, instantSec := wall }
    | some o => some { aware := true, instantSec := wall - o * 60 }
  else none

/-- Model of datetime.fromisoformat restricted to the grammar this
pipeline can meet after the Z replacement:
YYYY-MM-DD, optionally followed by a T or space separator and HH:MM:SS,
optionally followed by a +HH:MM or -HH:MM offset.  Every string accepted
here is accepted with the same value by CPython, and the NewsAPI
timestamps and the concrete inputs of the theorems below fall inside the
fragment; other strings are rejected (ValueError in the source, none
here). -/
def fromisoformat (s : String) : Option PyDatetime :=
  match s.toList with
  | [y1, y2, y3, y4, '-', m1, m2, '-', d1, d2] =>
    match twoDigits y1 y2, twoDigits y3 y4, twoDigits m1 m2, twoDigits d1 d2 with
    | some yh, some yl, some mo, some d => mkPyDatetime (yh * 100 + yl) mo d 0 0 0 none
    | _, _, _, _ => none
  | y1 :: y2 :: y3 :: y4 :: '-' :: m1 :: m2 :: '-' :: d1 :: d2 :: sep :: rest =>
    if sep == 'T' || sep == ' ' then
      match twoDigits y1 y2, twoDigits y3 y4, twoDigits m1 m2, twoDigits d1 d2 with
      | some yh, some yl, some mo, some d =>
        let y := yh * 100 + yl
        match rest with
        | [h1, h2, ':', n1, n2, ':', s1, s2] =>
          match twoDigits h1 h2, twoDigits n1 n2, twoDigits s1 s2 with
          | some h, some mi, some sec => mkPyDatetime y mo d h mi sec none
          | _, _, _ => none
        | [h1, h2, ':', n1, n2, ':', s1, s2, sg, o1, o2, ':', o3, o4] =>
          match twoDigits h1 h2, twoDigits n1 n2, twoDigits s1 s2,
              twoDigits o1 o2, twoDigits o3 o4 with
          | some h, some mi, some sec, some oh, some om =>
            if (sg == '+' || sg == '-') && oh ≤ 23 && om ≤ 59 then
              let off : Int := (oh * 60 + om : Nat)
              mkPyDatetime y mo d h mi sec (some (if sg == '+' then off else -off))
            else none
          | _, _, _, _, _ => none
        | _ => none
      | _, _, _, _ => none
    else none
  | _ => none

/-- published_at.replace("Z", "+00:00"): str.replace with the
one-character pattern "Z" substitutes every occurrence. -/
def replaceZ (s : String) : String :=
  String.mk (s.toList.foldr
    (fun c acc => if c == 'Z' then '+' :: '0' :: '0' :: ':' :: '0' :: '0' :: acc else c :: acc)
    [])

/-- _parse_date (collect_news.py lines 236-242):
datetime.fromisoformat(article.published_at.replace("Z", "+00:00")),
falling back to the aware datetime.min on ValueError (unparseable string)
or AttributeError (published_at is None). -/
def _parse_date (article : Article) : PyDatetime :=
  match article.published_at with
  | none => pyDatetimeMin
  | some s =>
    match fromisoformat (replaceZ s) with
    | some dt => dt
    | none => pyDatetimeMin

/- ──────────────────────────────────────────────
   The sort (collect_news.py line 244)
   ────────────────────────────────────────────── -/

/-- Errors, as the exception classes an escaping Python exception would
have. -/
inductive PyError where
  | valueError (msg : String)
  | typeError (msg : String)
  | jsonDecodeError
deriving Repr, DecidableEq

/-- Sort key instant of an article. -/
def dateInstant (a : Article) : Int := (_parse_date a).instantSec

/-- Stable descending insertion: place x before the first element whose
key is at most the key of x, so equal keys keep original order. -/
def insertDesc (x : Article) : List Article → List Article
  | [] => [x]
  | y :: ys =>
    if dateInstant y ≤ dateInstant x then x :: y :: ys
    else y :: insertDesc x ys

/-- Stable descending sort by parsed publish time. -/
def sortByDateDesc : List Article → List Article
  | [] => []
  | a :: rest => insertDesc a (sortByDateDesc rest)

/-- unique_articles.sort(key=_parse_date, reverse=True).  CPython raises
TypeError whenever a naive and an aware datetime key are compared, and
list.sort on a list holding keys of both kinds necessarily performs such a
comparison (two adjacent elements of the would-be output are always
directly compared); with keys of one kind every comparison is defined and
the result is the stable descending order.  The model therefore errors
exactly when both kinds of key are present. -/
def pySortArticles (l : List Article) : Except PyError (List Article) :=
  if (l.any fun a => (_parse_date a).aware) && (l.any fun a => !(_parse_date a).aware) then
    .error (.typeError "cannot compare offset-naive and offset-aware datetimes")
  else .ok (sortByDateDesc l)

/- ──────────────────────────────────────────────
   NewsAPI call and collect_news (lines 142-250)
   ────────────────────────────────────────────── -/

/-- The decoded JSON body of a provider response: the status field (none =
key absent) and the articles list (data.get("articles", []), absent key
modelled by the empty list). -/
structure ApiBody where
  status : Option String
  articles : List RawArticle
deriving Repr, DecidableEq

/-- The outcome of one outbound request, the environment input of one
_fetch_articles_for_query call:
transportError = requests.get raised a RequestException;
httpError = response.raise_for_status raised (non-success HTTP status,
an HTTPError, which is a RequestException);
success none = a success HTTP status whose body is not decodable JSON
(response.json() raises);
success (some body) = a success HTTP status with decoded body. -/
inductive QueryResponse where
  | transportError
  | httpError
  | success (body : Option ApiBody)
deriving Repr, DecidableEq

/-- _fetch_articles_for_query (collect_news.py lines 142-201), as a
function of the response: the try/except returns [] on RequestException
(transport failure and non-success HTTP status); response.json() sits
outside the try, so an undecodable body escapes as an exception; a decoded
body with status != "ok" yields []; otherwise the raw items are filtered
and turned into Articles. -/
def _fetch_articles_for_query (response : QueryResponse) : Except PyError (List Article) :=
  match response with
  | .transportError => .ok []
  | .httpError => .ok []
  | .success none => .error .jsonDecodeError
  | .success (some data) =>
    if data.status ≠ some "ok" then .ok []
    else .ok (buildArticles data.articles)

/-- The aggregation loop of collect_news (lines 225-227): one response per
keyword group, in group-declaration order; contributions are concatenated;
an escaping exception aborts the remaining queries. -/
def gatherAll : List QueryResponse → Except PyError (List Article)
  | [] => .ok []
  | r :: rest => do
    let articles ← _fetch_articles_for_query r
    let tail ← gatherAll rest
    .ok (articles ++ tail)

/-- MAX_ARTICLES (config.py). -/
def MAX_ARTICLES : Nat := 20

/-- The message of the missing-credential error (the source raises
ValueError with a Japanese message; the text is not load-bearing). -/
def credentialErrorMsg : String := "NEWSAPI_KEY must be set"

/-- collect_news (lines 207-250) as a function of the configured
credential and of the per-query provider responses (indexed by
SEARCH_KEYWORD_GROUPS order): fail fast on an empty credential, gather all
query contributions, deduplicate, sort by publish date descending,
truncate to MAX_ARTICLES. -/
def collect_news (apiKey : String) (responses : List QueryResponse) :
    Except PyError (List Article) :=
  if apiKey = "" then .error (.valueError credentialErrorMsg)
  else do
    let allArticles ← gatherAll responses
    let uniqueArticles := _deduplicate_articles allArticles
    let sorted ← pySortArticles uniqueArticles
    .ok (sorted.take MAX_ARTICLES)

/- ──────────────────────────────────────────────
   Spec-side predicates and proof-side definitions
   ────────────────────────────────────────────── -/

/-- The seen_urls invariant of the deduplication loop: the seen set holds
exactly the normalized URLs of the accepted articles (URLs are added only
on acceptance, collect_news.py lines 110-112). -/
def SeenInv (st : List String × List Article) : Prop :=
  ∀ u, u ∈ st.1 ↔ u ∈ st.2.map nUrl

/-- The pairwise guarantee the loop establishes between an earlier
accepted article e and a later accepted article x: distinct normalized
URLs and title similarity below the threshold in the order the code
checked (later title first). -/
def pOK (e x : Article) : Prop :=
  nUrl x ≠ nUrl e ∧ _is_similar_title x.title e.title = false

/-- The rejection condition in the words of the specification: title
absent, empty or whitespace-only; or url absent, empty or whitespace-only;
or title trimmed and lowercased equal to the sentinel; or description
trimmed and lowercased equal to the sentinel.  (Stated for comparison with
_is_valid_article, which is translated from the source.) -/
def rejectedSpec (r : RawArticle) : Prop :=
  (pyOrStr r.title "").toList.all isPyWhitespace = true ∨
  (pyOrStr r.url "").toList.all isPyWhitespace = true ∨
  pyLower (pyStrip (pyOrStr r.title "")) = "[removed]" ∨
  pyLower (pyStrip (pyOrStr r.description "")) = "[removed]"

/-- A string is whitespace-trimmed: no leading and no trailing whitespace
character. -/
def isTrimmedStr (s : String) : Bool :=
  (match s.toList.head? with
   | none => true
   | some c => !isPyWhitespace c) &&
  (match s.toList.reverse.head? with
   | none => true
   | some c => !isPyWhitespace c)

/- Concrete inputs used by the closed theorems below. -/

/-- Concrete article: accepted first. -/
def cArtA : Article :=
  { title := "aaaa", description := "", url := "http://a.com/p",
    source := "s", published_at := none, image_url := none }

/-- Concrete article: same title as cArtA (similarity 1.0), different
URL. -/
def cArtB : Article :=
  { title := "aaaa", description := "", url := "http://b.com/q",
    source := "s", published_at := none, image_url := none }

/-- Concrete article: same URL as cArtB, title dissimilar from cArtA. -/
def cArtC : Article :=
  { title := "zzzz", description := "", url := "http://b.com/q",
    source := "s", published_at := none, image_url := none }

/-- Concrete article whose title scores 0.8 against cArtY in one order
and 0.6 in the other (SequenceMatcher is not symmetric). -/
def cArtX : Article :=
  { title := "abab", description := "", url := "http://x.com/1",
    source := "s", published_at := none, image_url := none }

/-- Concrete article paired with cArtX. -/
def cArtY : Article :=
  { title := "babaab", description := "", url := "http://y.com/2",
    source := "s", published_at := none, image_url := none }

/-- Concrete article with a parseable timezone-naive timestamp. -/
def cArtNaive : Article :=
  { title := "aa", description := "", url := "http://n.com/1",
    source := "s", published_at := some "2024-01-01T00:00:00", image_url := none }

/-- Concrete article with an unparseable timestamp. -/
def cArtBadDate : Article :=
  { title := "zzzz", description := "", url := "http://n.com/2",
    source := "s", published_at := some "not-a-date", image_url := none }

/-- Raw item producing an article with a parseable naive timestamp. -/
def cRawNaive : RawArticle :=
  { title := some "aa", description := some "d1", url := some "http://n.com/1",
    sourceName := some "s", publishedAt := some (some "2024-01-01T00:00:00"),
    urlToImage := none }

/-- Raw item producing an article with an unparseable timestamp. -/
def cRawBadDate : RawArticle :=
  { title := some "zzzz", description := some "d2", url := some "http://n.com/2",
    sourceName := some "s", publishedAt := some (some "not-a-date"),
    urlToImage := none }

/-- A provider response whose two articles yield one naive and one aware
sort key. -/
def cMixedResponse : QueryResponse :=
  .success (some { status := some "ok", articles := [cRawNaive, cRawBadDate] })

/-- Raw item with untrimmed fields everywhere, including publishedAt. -/
def cRawUntrimmed : RawArticle :=
  { title := some " T ", description := some " d ", url := some " u ",
    sourceName := none, publishedAt := some (some " 2024 "), urlToImage := none }

/-- Raw item rejected for a whitespace-only title. -/
def cRawWsTitle : RawArticle :=
  { title := some "  ", description := some "d", url := some "http://a.com",
    sourceName := none, publishedAt := none, urlToImage := none }

/-- Two raw items agreeing on title, description and url but not on the
other fields. -/
def cRawSameA : RawArticle :=
  { title := some "t", description := some "d", url := some "u",
    sourceName := some "s1", publishedAt := some (some "p1"), urlToImage := none }

/-- Companion of cRawSameA with different non-filter fields. -/
def cRawSameB : RawArticle :=
  { title := some "t", description := some "d", url := some "u",
    sourceName := some "s2", publishedAt := none, urlToImage := some "i" }

/-- Raw item for a clean end-to-end run (aware timestamp, later date). -/
def wRaw1 : RawArticle :=
  { title := some "aa", description := some "d", url := some "http://w.com/1",
    sourceName := some "src", publishedAt := some (some "2024-01-02T00:00:00Z"),
    urlToImage := none }

/-- Raw item for a clean end-to-end run (aware timestamp, earlier date). -/
def wRaw2 : RawArticle :=
  { title := some "zzzz", description := some "d", url := some "http://w.com/2",
    sourceName := some "src", publishedAt := some (some "2024-01-01T00:00:00Z"),
    urlToImage := none }

/-- Responses of the clean end-to-end run: one query group returning two
valid, distinct articles. -/
def wResponses : List QueryResponse :=
  [.success (some { status := some "ok", articles := [wRaw1, wRaw2] })]

/-- The finalized result of the clean end-to-end run. -/
def wResult : List Article :=
  [articleFromRaw wRaw1, articleFromRaw wRaw2]

/-- A provider body with a non-ok status. -/
def cBadStatusBody : ApiBody :=
  { status := some "error", articles := [cRawNaive] }

/- ──────────────────────────────────────────────
   Lemmas about the deduplication loop
   ────────────────────────────────────────────── -/

theorem dedupSt_append (l r : List Article) :
    ∀ st, dedupSt st (l ++ r) = dedupSt (dedupSt st l) r := by
  induction l with
  | nil => intro st; rfl
  | cons a t ih =>
    intro st
    simp only [List.cons_append, dedupSt]
    split
    · exact ih st
    · split
      · exact ih st
      · exact ih _

theorem seenInv_empty : SeenInv ([], []) := by
  intro u
  simp

theorem seenInv_accept (st : List String × List Article) (a : Article)
    (h : SeenInv st) : SeenInv (nUrl a :: st.1, st.2 ++ [a]) := by
  intro u
  simp only [List.mem_cons, List.map_append, List.mem_append, List.map_cons,
    List.map_nil, List.mem_singleton]
  constructor
  · rintro (h1 | h2)
    · exact Or.inr (Or.inl h1)
    · exact Or.inl ((h u).mp h2)
  · rintro (h1 | h2 | h3)
    · exact Or.inr ((h u).mpr h1)
    · exact Or.inl h2
    · exact absurd h3 (List.not_mem_nil u)

theorem seenInv_dedupSt (l : List Article) :
    ∀ st, SeenInv st → SeenInv (dedupSt st l) := by
  induction l with
  | nil => intro st h; exact h
  | cons a t ih =>
    intro st h
    rw [dedupSt.eq_2]
    by_cases hc : st.1.contains (nUrl a) = true
    · rw [if_pos hc]; exact ih st h
    · rw [if_neg hc]
      by_cases hs : (st.2.any fun e => _is_similar_title a.title e.title) = true
      · rw [if_pos hs]; exact ih st h
      · rw [if_neg hs]; exact ih _ (seenInv_accept st a h)

theorem dedupSt_snd_extends (l : List Article) :
    ∀ st, ∃ t, (dedupSt st l).2 = st.2 ++ t ∧ t.Sublist l := by
  induction l with
  | nil =>
    intro st
    exact ⟨[], by simp [dedupSt], List.nil_sublist []⟩
  | cons a rest ih =>
    intro st
    simp only [dedupSt]
    split
    · obtain ⟨t, h1, h2⟩ := ih st
      exact ⟨t, h1, h2.cons a⟩
    · split
      · obtain ⟨t, h1, h2⟩ := ih st
        exact ⟨t, h1, h2.cons a⟩
      · obtain ⟨t, h1, h2⟩ := ih (nUrl a :: st.1, st.2 ++ [a])
        refine ⟨a :: t, ?_, h2.cons₂ a⟩
        rw [h1]
        simp

theorem pairwise_dedupSt (l : List Article) :
    ∀ st, SeenInv st → List.Pairwise pOK st.2 →
      List.Pairwise pOK (dedupSt st l).2 := by
  induction l with
  | nil => intro st _ hp; exact hp
  | cons a rest ih =>
    intro st hinv hp
    rw [dedupSt.eq_2]
    by_cases hc : st.1.contains (nUrl a) = true
    · rw [if_pos hc]; exact ih st hinv hp
    · rw [if_neg hc]
      by_cases hs : (st.2.any fun e => _is_similar_title a.title e.title) = true
      · rw [if_pos hs]; exact ih st hinv hp
      · rw [if_neg hs]
        apply ih _ (seenInv_accept st a hinv)
        rw [List.pairwise_append]
        refine ⟨hp, List.pairwise_singleton pOK a, ?_⟩
        intro e he x hx
        rw [List.mem_singleton] at hx
        subst hx
        refine ⟨?_, ?_⟩
        · intro heq
          exact hc (List.elem_iff.mpr ((hinv (nUrl x)).mpr
            (heq ▸ List.mem_map_of_mem nUrl he)))
        · by_contra hxe
          exact hs (List.any_eq_true.mpr ⟨e, he, Bool.of_not_eq_false hxe⟩)

theorem dedupSt_fixed (O : List Article) :
    ∀ st, SeenInv st → List.Pairwise pOK (st.2 ++ O) →
      (dedupSt st O).2 = st.2 ++ O := by
  induction O with
  | nil => intro st _ _; exact (List.append_nil st.2).symm
  | cons x rest ih =>
    intro st hinv hp
    have hcross : ∀ e ∈ st.2, pOK e x := by
      intro e he
      exact (List.pairwise_append.mp hp).2.2 e he x (List.mem_cons_self x rest)
    have hcont : ¬ st.1.contains (nUrl x) = true := by
      intro hc
      obtain ⟨e, he, hne⟩ := List.mem_map.mp ((hinv (nUrl x)).mp (List.elem_iff.mp hc))
      exact (hcross e he).1 hne.symm
    have hsim : ¬ (st.2.any fun e => _is_similar_title x.title e.title) = true := by
      intro hsAny
      obtain ⟨e, he, hpe⟩ := List.any_eq_true.mp hsAny
      rw [(hcross e he).2] at hpe
      exact Bool.false_ne_true hpe
    rw [dedupSt.eq_2, if_neg hcont, if_neg hsim]
    have hp2 : List.Pairwise pOK ((st.2 ++ [x]) ++ rest) := by
      rw [List.append_assoc, List.singleton_append]
      exact hp
    rw [ih _ (seenInv_accept st x hinv) hp2]
    simp

/- ──────────────
   Lemmas about the sort and the collector
   ────────────── -/

theorem insertDesc_perm (x : Article) (l : List Article) :
    (insertDesc x l).Perm (x :: l) := by
  induction l with
  | nil => exact List.Perm.refl [x]
  | cons y ys ih =>
    rw [insertDesc.eq_2]
    by_cases h : dateInstant y ≤ dateInstant x
    · rw [if_pos h]
    · rw [if_neg h]
      exact (ih.cons y).trans (List.Perm.swap x y ys)

theorem sortByDateDesc_perm (l : List Article) :
    (sortByDateDesc l).Perm l := by
  induction l with
  | nil => exact List.Perm.refl []
  | cons a rest ih =>
    rw [sortByDateDesc.eq_2]
    exact (insertDesc_perm a (sortByDateDesc rest)).trans (ih.cons a)

theorem insertDesc_sorted (x : Article) (l : List Article)
    (h : List.Pairwise (fun p q => dateInstant q ≤ dateInstant p) l) :
    List.Pairwise (fun p q => dateInstant q ≤ dateInstant p) (insertDesc x l) := by
  induction l with
  | nil => exact List.pairwise_singleton _ x
  | cons y ys ih =>
    rw [insertDesc.eq_2]
    by_cases hyx : dateInstant y ≤ dateInstant x
    · rw [if_pos hyx]
      refine List.Pairwise.cons ?_ h
      intro z hz
      rcases List.mem_cons.mp hz with hzy | hzys
      · subst hzy; exact hyx
      · exact le_trans (List.rel_of_pairwise_cons h hzys) hyx
    · rw [if_neg hyx]
      refine List.Pairwise.cons ?_ (ih (List.Pairwise.of_cons h))
      intro z hz
      rcases List.mem_cons.mp ((insertDesc_perm x ys).mem_iff.mp hz) with hzx | hzys
      · subst hzx; exact le_of_lt (lt_of_not_le hyx)
      · exact List.rel_of_pairwise_cons h hzys

theorem sortByDateDesc_sorted (l : List Article) :
    List.Pairwise (fun p q => dateInstant q ≤ dateInstant p) (sortByDateDesc l) := by
  induction l with
  | nil => exact List.Pairwise.nil
  | cons a rest ih =>
    rw [sortByDateDesc.eq_2]
    exact insertDesc_sorted a (sortByDateDesc rest) ih

theorem pySortArticles_ok_shape (l s : List Article)
    (h : pySortArticles l = .ok s) : s = sortByDateDesc l := by
  unfold pySortArticles at h
  by_cases hcond : ((l.any fun a => (_parse_date a).aware)
      && l.any fun a => !(_parse_date a).aware) = true
  · rw [if_pos hcond] at h
    exact absurd h (by simp)
  · rw [if_neg hcond] at h
    injection h with h2
    exact h2.symm

theorem fetch_error_shape (resp : QueryResponse) (e : PyError)
    (h : _fetch_articles_for_query resp = .error e) : e = .jsonDecodeError := by
  cases resp with
  | transportError => exact absurd h (by simp [_fetch_articles_for_query])
  | httpError => exact absurd h (by simp [_fetch_articles_for_query])
  | success body =>
    cases body with
    | none =>
      simp only [_fetch_articles_for_query] at h
      injection h with h2
      exact h2.symm
    | some data =>
      simp only [_fetch_articles_for_query] at h
      by_cases hst : data.status ≠ some "ok"
      · rw [if_pos hst] at h
        exact absurd h (by simp)
      · rw [if_neg hst] at h
        exact absurd h (by simp)

theorem gatherAll_error_shape (rs : List QueryResponse) :
    ∀ e, gatherAll rs = .error e → e = .jsonDecodeError := by
  induction rs with
  | nil => intro e h; exact absurd h (by simp [gatherAll])
  | cons r rest ih =>
    intro e h
    simp only [gatherAll] at h
    cases hr : _fetch_articles_for_query r with
    | error e2 =>
      rw [hr] at h
      simp only [Bind.bind, Except.bind] at h
      injection h with h2
      exact h2 ▸ fetch_error_shape r e2 hr
    | ok a =>
      rw [hr] at h
      simp only [Bind.bind, Except.bind] at h
      cases ht : gatherAll rest with
      | error e3 =>
        rw [ht] at h
        simp only [Bind.bind, Except.bind] at h
        injection h with h2
        exact h2 ▸ ih e3 ht
      | ok t =>
        rw [ht] at h
        simp only [Bind.bind, Except.bind] at h
        exact absurd h (by simp)

theorem gatherAll_skip (rs1 rs2 : List QueryResponse) (resp : QueryResponse)
    (h : _fetch_articles_for_query resp = .ok []) :
    gatherAll (rs1 ++ resp :: rs2) = gatherAll (rs1 ++ rs2) := by
  induction rs1 with
  | nil =>
    simp only [List.nil_append, gatherAll, h]
    simp only [Bind.bind, Except.bind]
    cases gatherAll rs2 with
    | error e => rfl
    | ok t => simp
  | cons r rest ih =>
    simp only [List.cons_append, gatherAll, List.append_eq]
    rw [ih]

theorem collect_news_ok_inv (k : String) (rs : List QueryResponse)
    (r : List Article) (h : collect_news k rs = .ok r) :
    ∃ allA, gatherAll rs = .ok allA ∧
      pySortArticles (_deduplicate_articles allA)
        = .ok (sortByDateDesc (_deduplicate_articles allA)) ∧
      r = (sortByDateDesc (_deduplicate_articles allA)).take MAX_ARTICLES := by
  unfold collect_news at h
  by_cases hk : k = ""
  · rw [if_pos hk] at h
    exact absurd h (by simp)
  · rw [if_neg hk] at h
    simp only [Bind.bind, Except.bind] at h
    cases hg : gatherAll rs with
    | error e =>
      rw [hg] at h
      simp at h
    | ok allA =>
      rw [hg] at h
      dsimp only at h
      cases hs : pySortArticles (_deduplicate_articles allA) with
      | error e =>
        rw [hs] at h
        simp at h
      | ok s =>
        rw [hs] at h
        dsimp only at h
        have hshape := pySortArticles_ok_shape _ _ hs
        subst hshape
        refine ⟨allA, rfl, hs, ?_⟩
        injection h with h2
        exact h2.symm

/- ──────────────
   Lemmas about pyStrip
   ────────────── -/

theorem head?_dropWhile_false (p : Char → Bool) (l : List Char) :
    ∀ c, (l.dropWhile p).head? = some c → p c = false := by
  induction l with
  | nil => intro c h; exact absurd h (by simp)
  | cons a t ih =>
    intro c h
    rw [List.dropWhile_cons] at h
    by_cases hpa : p a = true
    · rw [if_pos hpa] at h
      exact ih c h
    · rw [if_neg hpa] at h
      injection h with h2
      rw [← h2]
      revert hpa
      cases p a <;> simp

theorem pyStrip_no_boundary_ws (l : List Char) :
    (∀ c, (((l.dropWhile isPyWhitespace).reverse.dropWhile isPyWhitespace).reverse).head? = some c →
       isPyWhitespace c = false) ∧
    (∀ c, (((l.dropWhile isPyWhitespace).reverse.dropWhile isPyWhitespace).reverse).reverse.head? = some c →
       isPyWhitespace c = false) := by
  constructor
  · intro c h
    obtain ⟨z, hz⟩ := List.dropWhile_suffix (l := (l.dropWhile isPyWhitespace).reverse) isPyWhitespace
    have h2 : ((l.dropWhile isPyWhitespace).reverse.dropWhile isPyWhitespace).reverse ++ z.reverse
        = l.dropWhile isPyWhitespace := by
      have h3 := congrArg List.reverse hz
      rwa [List.reverse_append, List.reverse_reverse] at h3
    have h4 : (l.dropWhile isPyWhitespace).head? = some c := by
      rw [← h2, List.head?_append, h]
      rfl
    exact head?_dropWhile_false _ _ c h4
  · intro c h
    rw [List.reverse_reverse] at h
    exact head?_dropWhile_false _ _ c h

theorem pyStrip_eq_empty_iff (s : String) :
    pyStrip s = "" ↔ s.toList.all isPyWhitespace = true := by
  unfold pyStrip
  rw [String.ext_iff]
  show ((s.toList.dropWhile isPyWhitespace).reverse.dropWhile isPyWhitespace).reverse = [] ↔ _
  rw [List.reverse_eq_nil_iff, List.dropWhile_eq_nil_iff, List.all_eq_true]
  constructor
  · intro h x hx
    have hsplit : x ∈ s.toList.takeWhile isPyWhitespace ++ s.toList.dropWhile isPyWhitespace := by
      rw [List.takeWhile_append_dropWhile]
      exact hx
    rcases List.mem_append.mp hsplit with h1 | h2
    · exact List.mem_takeWhile_imp h1
    · exact h x (List.mem_reverse.mpr h2)
  · intro h x hx
    exact h x ((List.dropWhile_sublist _).subset (List.mem_reverse.mp hx))

theorem isTrimmedStr_pyStrip (s : String) : isTrimmedStr (pyStrip s) = true := by
  have h := pyStrip_no_boundary_ws s.toList
  unfold isTrimmedStr
  rw [Bool.and_eq_true]
  constructor
  · split
    · rfl
    · rename_i c hc
      rw [h.1 c hc]
      rfl
  · split
    · rfl
    · rename_i c hc
      rw [h.2 c hc]
      rfl

theorem valid_false_iff (r : RawArticle) :
    _is_valid_article r = false ↔ rejectedSpec r := by
  unfold _is_valid_article rejectedSpec
  rw [← pyStrip_eq_empty_iff, ← pyStrip_eq_empty_iff]
  by_cases hT : pyStrip (pyOrStr r.title "") = "" <;>
    by_cases hU : pyStrip (pyOrStr r.url "") = "" <;>
    by_cases h1 : pyLower (pyStrip (pyOrStr r.title "")) = "[removed]" <;>
    by_cases h2 : pyLower (pyStrip (pyOrStr r.description "")) = "[removed]" <;>
    simp [hT, hU, h1, h2]

theorem valid_true_nonempty (r : RawArticle) (h : _is_valid_article r = true) :
    pyStrip (pyOrStr r.title "") ≠ "" ∧ pyStrip (pyOrStr r.url "") ≠ "" := by
  refine ⟨fun hEq => ?_, fun hEq => ?_⟩
  · unfold _is_valid_article at h
    dsimp only at h
    rw [hEq] at h
    simp at h
  · unfold _is_valid_article at h
    dsimp only at h
    rw [hEq] at h
    simp at h

/- ──────────────
   Claim theorems
   ────────────── -/

theorem pySortArticles_error_shape (l : List Article) (e : PyError)
    (h : pySortArticles l = .error e) :
    e = .typeError "cannot compare offset-naive and offset-aware datetimes" := by
  unfold pySortArticles at h
  by_cases hcond : ((l.any fun a => (_parse_date a).aware)
      && l.any fun a => !(_parse_date a).aware) = true
  · rw [if_pos hcond] at h
    injection h with h2
    exact h2.symm
  · rw [if_neg hcond] at h
    exact absurd h (by simp)

/-- C1 (amended): the deduplicator returns a subsequence of its input
(duplicates removed, no reordering, no new elements, every accepted
article keeps its first-seen position relative to the other accepted
ones), and whenever a later article conflicts (same normalized URL or
title similarity at or above the threshold) with an earlier ACCEPTED
article, the later one is dropped: the run continues exactly as if it were
absent.  The unrestricted tie-break clause of the claim (any conflicting
pair keeps the earlier, drops the later) fails, because a conflict with an
article that was itself dropped does not protect the earlier article. -/
theorem dedup_subsequence_first_seen :
    ∀ l : List Article,
      (_deduplicate_articles l).Sublist l ∧
      ∀ l1 x l2, l = l1 ++ x :: l2 →
        (∃ e ∈ _deduplicate_articles l1, conflicts x e = true) →
        _deduplicate_articles l = _deduplicate_articles (l1 ++ l2) := by
  intro l
  constructor
  · obtain ⟨t, h1, h2⟩ := dedupSt_snd_extends l ([], [])
    show (dedupSt ([], []) l).2.Sublist l
    rw [h1]
    simpa using h2
  · rintro l1 x l2 rfl ⟨e, he, hconf⟩
    show (dedupSt ([], []) (l1 ++ x :: l2)).2 = (dedupSt ([], []) (l1 ++ l2)).2
    rw [dedupSt_append l1 (x :: l2) ([], []), dedupSt_append l1 l2 ([], [])]
    have hinv : SeenInv (dedupSt ([], []) l1) := seenInv_dedupSt l1 ([], []) seenInv_empty
    have he2 : e ∈ (dedupSt ([], []) l1).2 := he
    simp only [conflicts, Bool.or_eq_true, beq_iff_eq] at hconf
    rw [dedupSt.eq_2]
    rcases hconf with hurl | hsim
    · have hc : (dedupSt ([], []) l1).1.contains (nUrl x) = true := by
        apply List.elem_iff.mpr
        apply (hinv (nUrl x)).mpr
        rw [hurl]
        exact List.mem_map_of_mem nUrl he2
      rw [if_pos hc]
    · by_cases hc : (dedupSt ([], []) l1).1.contains (nUrl x) = true
      · rw [if_pos hc]
      · rw [if_neg hc, if_pos (List.any_eq_true.mpr ⟨e, he2, hsim⟩)]

/-- Witness for C1: in [A, B, C] with B a title-duplicate of the accepted
A, the run drops B and equals the run without B. -/
theorem dedup_subsequence_first_seen_witness :
    (∃ e ∈ _deduplicate_articles [cArtA], conflicts cArtB e = true) ∧
    _deduplicate_articles [cArtA, cArtB, cArtC] = _deduplicate_articles ([cArtA] ++ [cArtC]) := by
  refine ⟨⟨cArtA, by decide, by decide⟩, ?_⟩
  exact (dedup_subsequence_first_seen [cArtA, cArtB, cArtC]).2 [cArtA] cArtB [cArtC] rfl
    ⟨cArtA, by decide, by decide⟩

/-- Counterexample to C1 as stated: cArtB and cArtC conflict (same
normalized URL) and cArtB comes first, yet the EARLIER cArtB is dropped
(being a title-duplicate of cArtA) and the LATER cArtC is kept. -/
theorem dedup_conflict_cex :
    conflicts cArtB cArtC = true ∧ conflicts cArtC cArtB = true ∧
    cArtB ∉ _deduplicate_articles [cArtA, cArtB, cArtC] ∧
    cArtC ∈ _deduplicate_articles [cArtA, cArtB, cArtC] := by
  decide

/-- C4: the deduplicator is idempotent: deduplicating its own output
returns that output unchanged. -/
theorem dedup_idempotent :
    ∀ l : List Article,
      _deduplicate_articles (_deduplicate_articles l) = _deduplicate_articles l := by
  intro l
  have hp : List.Pairwise pOK (_deduplicate_articles l) :=
    pairwise_dedupSt l ([], []) seenInv_empty List.Pairwise.nil
  have h := dedupSt_fixed (_deduplicate_articles l) ([], []) seenInv_empty (by simpa using hp)
  show (dedupSt ([], []) (_deduplicate_articles l)).2 = _deduplicate_articles l
  simpa using h

/-- C10: the seen-URL set holds exactly the normalized URLs of ACCEPTED
articles, so the fate of a trailing article is decided only by the
accepted output of the prefix: it is rejected exactly when its normalized
URL equals that of an accepted article or its title is similar to an
accepted title, and the URL of a title-similarity-rejected article never
blocks it. -/
theorem dedup_seen_only_accepted :
    ∀ (l : List Article) (c : Article),
      _deduplicate_articles (l ++ [c]) =
        if (((_deduplicate_articles l).map nUrl).contains (nUrl c)
            || (_deduplicate_articles l).any fun e => _is_similar_title c.title e.title) = true
        then _deduplicate_articles l
        else _deduplicate_articles l ++ [c] := by
  intro l c
  have hinv : SeenInv (dedupSt ([], []) l) := seenInv_dedupSt l ([], []) seenInv_empty
  unfold _deduplicate_articles
  rw [dedupSt_append l [c] ([], []), dedupSt.eq_2]
  by_cases hc : (dedupSt ([], []) l).1.contains (nUrl c) = true
  · have hb1 : ((dedupSt ([], []) l).2.map nUrl).contains (nUrl c) = true := by
      apply List.elem_iff.mpr
      exact (hinv (nUrl c)).mp (List.elem_iff.mp hc)
    rw [if_pos hc, hb1, Bool.true_or, if_pos rfl]
    rfl
  · have h1 : ((dedupSt ([], []) l).2.map nUrl).contains (nUrl c) = false := by
      rw [← Bool.not_eq_true]
      intro hmem
      exact hc (List.elem_iff.mpr ((hinv (nUrl c)).mpr (List.elem_iff.mp hmem)))
    rw [if_neg hc, h1, Bool.false_or]
    by_cases hs : ((dedupSt ([], []) l).2.any fun e => _is_similar_title c.title e.title) = true
    · rw [if_pos hs, hs, if_pos rfl]
      rfl
    · have hs0 : ((dedupSt ([], []) l).2.any fun e => _is_similar_title c.title e.title) = false := by
        revert hs
        cases (dedupSt ([], []) l).2.any fun e => _is_similar_title c.title e.title <;> simp
      rw [if_neg hs, hs0, if_neg (by simp)]
      rfl

/-- C2 (amended): no two articles of a deduplicated list share a
normalized URL, and in the comparison order the code checks (later
article title as first argument) every accepted pair scores below the
0.75 threshold; hence in every finalized collect_news result all
normalized URLs are distinct and every pair is below the threshold in at
least one comparison order.  The both-orders clause of the claim fails
because the SequenceMatcher score is not symmetric. -/
theorem dedup_no_duplicate_pairs :
    (∀ l, List.Pairwise
      (fun e x => nUrl x ≠ nUrl e ∧ _is_similar_title x.title e.title = false)
      (_deduplicate_articles l)) ∧
    (∀ k rs r, collect_news k rs = .ok r →
      List.Pairwise (fun x y => nUrl x ≠ nUrl y ∧
        (_is_similar_title x.title y.title = false ∨
         _is_similar_title y.title x.title = false)) r) := by
  constructor
  · intro l
    exact pairwise_dedupSt l ([], []) seenInv_empty List.Pairwise.nil
  · intro k rs r h
    obtain ⟨allA, hg, hs, hr⟩ := collect_news_ok_inv k rs r h
    subst hr
    have hp : List.Pairwise pOK (_deduplicate_articles allA) :=
      pairwise_dedupSt allA ([], []) seenInv_empty List.Pairwise.nil
    have hp2 : List.Pairwise (fun x y => nUrl x ≠ nUrl y ∧
        (_is_similar_title x.title y.title = false ∨
         _is_similar_title y.title x.title = false)) (_deduplicate_articles allA) := by
      refine hp.imp ?_
      intro a b hab
      exact ⟨fun hh => hab.1 hh.symm, Or.inr hab.2⟩
    have hsym : Symmetric (fun x y : Article => nUrl x ≠ nUrl y ∧
        (_is_similar_title x.title y.title = false ∨
         _is_similar_title y.title x.title = false)) := by
      intro x y hxy
      exact ⟨fun hh => hxy.1 hh.symm, hxy.2.symm⟩
    have hp3 := ((sortByDateDesc_perm (_deduplicate_articles allA)).pairwise_iff
      (fun hxy => hsym hxy)).mpr hp2
    exact List.Pairwise.sublist (List.take_sublist _ _) hp3

/-- Witness for C2: a concrete successful collect_news run whose result
satisfies the pairwise invariant. -/
theorem dedup_no_duplicate_pairs_witness :
    collect_news "apikey" wResponses = .ok wResult ∧
    List.Pairwise (fun x y => nUrl x ≠ nUrl y ∧
      (_is_similar_title x.title y.title = false ∨
       _is_similar_title y.title x.title = false)) wResult := by
  refine ⟨rfl, ?_⟩
  exact dedup_no_duplicate_pairs.2 "apikey" wResponses wResult rfl

/-- Counterexample to C2 as stated: both cArtX and cArtY are accepted
(score of the later against the earlier is 0.6), yet in the other
comparison order the score is 0.8, strictly above the 0.75 threshold. -/
theorem dedup_similarity_order_cex :
    _deduplicate_articles [cArtX, cArtY] = [cArtX, cArtY] ∧
    _is_similar_title cArtY.title cArtX.title = false ∧
    similarityExceeds cArtX.title cArtY.title = true := by
  refine ⟨by decide, by decide, by decide⟩

/-- C3: the quality filter rejects a raw record exactly when its title or
url is absent, empty or whitespace-only, or its title or description
trimmed and lowercased equals the "[removed]" sentinel; and acceptance
depends on no field other than title, description and url (the filter is a
pure predicate by construction). -/
theorem filter_characterization :
    (∀ r, _is_valid_article r = false ↔ rejectedSpec r) ∧
    (∀ r r2, r.title = r2.title → r.description = r2.description → r.url = r2.url →
      _is_valid_article r = _is_valid_article r2) := by
  constructor
  · exact valid_false_iff
  · intro r r2 h1 h2 h3
    unfold _is_valid_article
    rw [h1, h2, h3]

/-- Witness for C3: a whitespace-only title is rejected, and two records
agreeing on the three filter fields get the same verdict. -/
theorem filter_characterization_witness :
    _is_valid_article cRawWsTitle = false ∧
    _is_valid_article cRawSameA = _is_valid_article cRawSameB := by
  refine ⟨(filter_characterization.1 cRawWsTitle).mpr (Or.inl (by decide)), ?_⟩
  exact filter_characterization.2 cRawSameA cRawSameB rfl rfl rfl

/-- C5 (code bug): _parse_date maps an unparseable timestamp to the aware
datetime.min, but a parseable timestamp WITHOUT an offset yields a naive
key, and CPython list.sort raises TypeError when it compares a naive key
with an aware one; so the sort is not total over all publishedAt strings,
contrary to the never-errors claim. -/
theorem sort_mixed_naive_aware_errors :
    (fromisoformat "2024-01-01T00:00:00").isSome = true ∧
    (_parse_date cArtNaive).aware = false ∧
    _parse_date cArtBadDate = pyDatetimeMin ∧
    pySortArticles [cArtNaive, cArtBadDate] =
      .error (.typeError "cannot compare offset-naive and offset-aware datetimes") := by
  refine ⟨rfl, rfl, rfl, rfl⟩

/-- C6: a transport failure, a non-success HTTP status and a decoded body
with status different from "ok" each make the query contribute the empty
list without raising, and removing such a query from the response sequence
leaves the gathered articles unchanged (failure isolation). -/
theorem query_failure_isolated :
    _fetch_articles_for_query .transportError = .ok [] ∧
    _fetch_articles_for_query .httpError = .ok [] ∧
    (∀ body : ApiBody, body.status ≠ some "ok" →
      _fetch_articles_for_query (.success (some body)) = .ok []) ∧
    (∀ rs1 rs2 resp, _fetch_articles_for_query resp = .ok [] →
      gatherAll (rs1 ++ resp :: rs2) = gatherAll (rs1 ++ rs2)) := by
  refine ⟨rfl, rfl, ?_, gatherAll_skip⟩
  intro body hb
  show (if body.status ≠ some "ok" then Except.ok []
      else Except.ok (buildArticles body.articles)) = Except.ok []
  rw [if_pos hb]

/-- Witness for C6: a bad-status body yields the empty contribution, and a
transport-failing query can be elided from a concrete response sequence. -/
theorem query_failure_isolated_witness :
    _fetch_articles_for_query (.success (some cBadStatusBody)) = .ok [] ∧
    gatherAll ([.httpError] ++ .transportError :: [cMixedResponse]) =
      gatherAll ([.httpError] ++ [cMixedResponse]) := by
  refine ⟨query_failure_isolated.2.2.1 cBadStatusBody (by decide), ?_⟩
  exact query_failure_isolated.2.2.2 [.httpError] [cMixedResponse] .transportError rfl

/-- C7 (amended): collect_news fails with the missing-credential
configuration error exactly when the credential is empty, whatever the
provider responses (hence it is raised before any request is issued, and
once, not per query); the only-error clause of the claim fails, since
other exceptions can escalate (see credential_not_only_error_cex). -/
theorem credential_error_iff :
    ∀ (apiKey : String) (rs : List QueryResponse),
      collect_news apiKey rs = .error (.valueError credentialErrorMsg) ↔ apiKey = "" := by
  intro k rs
  constructor
  · intro h
    by_contra hk
    unfold collect_news at h
    rw [if_neg hk] at h
    simp only [Bind.bind, Except.bind] at h
    cases hg : gatherAll rs with
    | error e =>
      rw [hg] at h
      dsimp only at h
      injection h with h2
      have he := gatherAll_error_shape rs e hg
      subst he
      exact absurd h2 (by simp)
    | ok allA =>
      rw [hg] at h
      dsimp only at h
      cases hs : pySortArticles (_deduplicate_articles allA) with
      | error e =>
        rw [hs] at h
        dsimp only at h
        injection h with h2
        have he := pySortArticles_error_shape _ e hs
        subst he
        exact absurd h2 (by simp)
      | ok sorted =>
        rw [hs] at h
        dsimp only at h
        exact absurd h (by simp)
  · intro hk
    subst hk
    unfold collect_news
    rw [if_pos rfl]

/-- Counterexample to C7 as stated: with the credential present, a
successful response whose articles mix a parseable naive timestamp with an
unparseable one makes collect_news escalate the TypeError of the sort, so
the configuration error is not the only escalating error. -/
theorem credential_not_only_error_cex :
    ("apikey" : String) ≠ "" ∧
    collect_news "apikey" [cMixedResponse] =
      .error (.typeError "cannot compare offset-naive and offset-aware datetimes") := by
  refine ⟨by decide, rfl⟩

/-- C8: a finalized collect_news result has length at most MAX_ARTICLES;
it is exactly the MAX_ARTICLES-prefix of the deduplicated candidates
sorted by descending parsed publish time, so when the candidates exceed
the maximum exactly MAX_ARTICLES articles are returned and every dropped
candidate has a publish-time key at most that of every returned one (the
most recent ones are kept). -/
theorem collect_news_truncation :
    ∀ k rs r, collect_news k rs = .ok r →
      r.length ≤ MAX_ARTICLES ∧
      ∃ allA s, gatherAll rs = .ok allA ∧
        pySortArticles (_deduplicate_articles allA) = .ok s ∧
        r = s.take MAX_ARTICLES ∧
        ((_deduplicate_articles allA).length > MAX_ARTICLES → r.length = MAX_ARTICLES) ∧
        (∀ x ∈ s.drop MAX_ARTICLES, ∀ y ∈ r, dateInstant x ≤ dateInstant y) := by
  intro k rs r h
  obtain ⟨allA, hg, hs, hr⟩ := collect_news_ok_inv k rs r h
  subst hr
  constructor
  · rw [List.length_take]
    exact min_le_left _ _
  · refine ⟨allA, sortByDateDesc (_deduplicate_articles allA), hg, hs, rfl, ?_, ?_⟩
    · intro hlen
      rw [List.length_take, (sortByDateDesc_perm (_deduplicate_articles allA)).length_eq]
      exact Nat.min_eq_left (le_of_lt hlen)
    · intro x hx y hy
      have hsorted := sortByDateDesc_sorted (_deduplicate_articles allA)
      have hsplit : List.Pairwise (fun p q => dateInstant q ≤ dateInstant p)
          ((sortByDateDesc (_deduplicate_articles allA)).take MAX_ARTICLES ++
           (sortByDateDesc (_deduplicate_articles allA)).drop MAX_ARTICLES) := by
        rw [List.take_append_drop]
        exact hsorted
      exact (List.pairwise_append.mp hsplit).2.2 y hy x hx

/-- Witness for C8: a concrete successful run; its result length respects
the cap. -/
theorem collect_news_truncation_witness :
    collect_news "apikey" wResponses = .ok wResult ∧ wResult.length ≤ MAX_ARTICLES := by
  refine ⟨rfl, ?_⟩
  exact (collect_news_truncation "apikey" wResponses wResult rfl).1

/-- C9 (amended): an Article is constructed exactly for the raw items that
pass the quality filter; its title, description, url and source are
whitespace-trimmed, title and url are non-empty, source defaults to
"Unknown" when the provider omits it; publishedAt is passed through
unmodified (NOT trimmed: the all-string-fields clause of the claim fails,
see article_publishedAt_not_trimmed_cex). -/
theorem buildArticles_characterization :
    (∀ raws, buildArticles raws = (raws.filter _is_valid_article).map articleFromRaw) ∧
    (∀ raw, _is_valid_article raw = true →
      (articleFromRaw raw).title ≠ "" ∧ (articleFromRaw raw).url ≠ "" ∧
      isTrimmedStr (articleFromRaw raw).title = true ∧
      isTrimmedStr (articleFromRaw raw).description = true ∧
      isTrimmedStr (articleFromRaw raw).url = true ∧
      isTrimmedStr (articleFromRaw raw).source = true ∧
      (raw.sourceName = none → (articleFromRaw raw).source = "Unknown") ∧
      (∀ pa, raw.publishedAt = some pa → (articleFromRaw raw).published_at = pa)) := by
  constructor
  · intro raws
    induction raws with
    | nil => rfl
    | cons raw rest ih =>
      rw [buildArticles.eq_2, List.filter_cons]
      by_cases hv : _is_valid_article raw = true
      · rw [if_pos hv, if_pos hv, List.map_cons, ih]
      · rw [if_neg hv, if_neg hv, ih]
  · intro raw hv
    obtain ⟨ht, hu⟩ := valid_true_nonempty raw hv
    refine ⟨ht, hu, isTrimmedStr_pyStrip _, isTrimmedStr_pyStrip _, isTrimmedStr_pyStrip _,
      isTrimmedStr_pyStrip _, ?_, ?_⟩
    · intro hnone
      show pyStrip (pyOrStr raw.sourceName "Unknown") = "Unknown"
      rw [hnone]
      rfl
    · intro pa hpa
      show (match raw.publishedAt with | none => some "" | some v => v) = pa
      rw [hpa]

/-- Witness for C9: a concrete valid raw item; its article has a non-empty
title and a trimmed source. -/
theorem buildArticles_characterization_witness :
    _is_valid_article wRaw1 = true ∧
    (articleFromRaw wRaw1).title ≠ "" ∧
    isTrimmedStr (articleFromRaw wRaw1).source = true := by
  refine ⟨rfl, (buildArticles_characterization.2 wRaw1 rfl).1, ?_⟩
  exact (buildArticles_characterization.2 wRaw1 rfl).2.2.2.2.2.1

/-- Counterexample to C9 as stated: a valid raw item whose publishedAt
carries surrounding whitespace produces an Article whose published_at
field is NOT trimmed. -/
theorem article_publishedAt_not_trimmed_cex :
    _is_valid_article cRawUntrimmed = true ∧
    (buildArticles [cRawUntrimmed]).map (fun a => a.published_at) = [some " 2024 "] ∧
    pyStrip " 2024 " ≠ " 2024 " := by
  refine ⟨rfl, rfl, by decide⟩

end PaintNews